import Mathlib

/-!
Verification of the REToolForge rental ROI deal-evaluation engine and its
surrounding collaborators, as implemented in the repository.

The repository contains two variants of the calculator:

* `RentalRoi.computeDealFromInputs` models `computeDealFromInputs` in
  `src/tools/rental-roi.js` (guard returning `null`, loan amount clamped at 0,
  explicit zero-interest amortization branch, `NaN` cap rate / cash-on-cash
  modelled as `none`, verdict chain with the 0 / 200 / 8 thresholds).
* `MathCore.computeDeal` models `computeDeal` in the second source file
  (no guard, unclamped loan amount, mortgage only when the interest rate is
  positive, cap rate and cash-on-cash guarded to 0, verdict chain with the
  12 / 8 / 0 thresholds).

JavaScript numbers are modelled as exact rationals; the two spots where the
code can produce `NaN` (the ternaries in `rental-roi.js`) are modelled with
`Option ℚ`, `none` standing for `NaN`.  The same file also models the
subscription proxy `handler` and the persistence helper `loadLastInputs`
from the second source file, with the external effects (`fetch`,
`response.json()`, `localStorage.getItem`, `JSON.parse`) as parameters.
-/

/-- Sanitized numeric inputs of the calculator, one canonical field per
concept.  `loanTermYears` is an integer number of years per the data model. -/
structure FinancialInputs where
  purchasePrice : ℚ
  downPaymentPercent : ℚ
  interestRate : ℚ
  loanTermYears : ℕ
  monthlyRent : ℚ
  annualTaxes : ℚ
  annualInsurance : ℚ
  monthlyHOA : ℚ
  maintenancePercent : ℚ
  otherMonthly : ℚ
  closingCostsPercent : ℚ
  upfrontRepairs : ℚ
deriving DecidableEq

/-- Inputs as sanitized by the input-collection layer: every field
non-negative, and the two anchoring quantities strictly positive.  The
percentage fields are not bounded above by 100, matching what the code
actually accepts. -/
def Valid (i : FinancialInputs) : Prop :=
  0 < i.purchasePrice ∧ 0 < i.monthlyRent ∧
  0 ≤ i.downPaymentPercent ∧ 0 ≤ i.interestRate ∧
  0 ≤ i.annualTaxes ∧ 0 ≤ i.annualInsurance ∧ 0 ≤ i.monthlyHOA ∧
  0 ≤ i.maintenancePercent ∧ 0 ≤ i.otherMonthly ∧
  0 ≤ i.closingCostsPercent ∧ 0 ≤ i.upfrontRepairs

instance (i : FinancialInputs) : Decidable (Valid i) := by
  unfold Valid; infer_instance

/-- Comparison against a possibly-NaN value, mirroring the JavaScript
semantics where any comparison with NaN is false: `geOnSome x c` is true
exactly when `x` is an actual number `v` with `c ≤ v`. -/
def geOnSome (x : Option ℚ) (c : ℚ) : Bool :=
  match x with
  | none => false
  | some v => decide (c ≤ v)

namespace MathCore

/-! Shallow embedding of the `computeDeal` math core (second source file).
Each JavaScript `const` local becomes a definition. -/

def downPaymentAmount (i : FinancialInputs) : ℚ :=
  i.purchasePrice * (i.downPaymentPercent / 100)

def loanAmount (i : FinancialInputs) : ℚ :=
  i.purchasePrice - downPaymentAmount i

def monthlyMortgage (i : FinancialInputs) : ℚ :=
  if loanAmount i > 0 ∧ i.interestRate > 0 ∧ i.loanTermYears > 0 then
    let r := i.interestRate / 100 / 12
    let n := i.loanTermYears * 12
    loanAmount i * r * (1 + r) ^ n / ((1 + r) ^ n - 1)
  else 0

def monthlyTaxes (i : FinancialInputs) : ℚ := i.annualTaxes / 12

def monthlyInsurance (i : FinancialInputs) : ℚ := i.annualInsurance / 12

def maintVacancy (i : FinancialInputs) : ℚ :=
  i.monthlyRent * (i.maintenancePercent / 100)

def totalMonthlyExpenses (i : FinancialInputs) : ℚ :=
  monthlyMortgage i + monthlyTaxes i + monthlyInsurance i +
  i.monthlyHOA + maintVacancy i + i.otherMonthly

def grossMonthlyIncome (i : FinancialInputs) : ℚ := i.monthlyRent

def monthlyCashFlow (i : FinancialInputs) : ℚ :=
  grossMonthlyIncome i - totalMonthlyExpenses i

def annualCashFlow (i : FinancialInputs) : ℚ := monthlyCashFlow i * 12

def annualNOI (i : FinancialInputs) : ℚ :=
  grossMonthlyIncome i * 12 -
  (i.annualTaxes + i.annualInsurance + i.monthlyHOA * 12 +
   maintVacancy i * 12 + i.otherMonthly * 12)

def capRate (i : FinancialInputs) : ℚ :=
  if i.purchasePrice > 0 then annualNOI i / i.purchasePrice * 100 else 0

def closingCostsAmount (i : FinancialInputs) : ℚ :=
  i.purchasePrice * (i.closingCostsPercent / 100)

def totalCashInvested (i : FinancialInputs) : ℚ :=
  downPaymentAmount i + closingCostsAmount i + i.upfrontRepairs

def cashOnCashReturn (i : FinancialInputs) : ℚ :=
  if totalCashInvested i > 0 then annualCashFlow i / totalCashInvested i * 100
  else 0

/-- Verdict label and tone, mirroring the first-match if/else chain of the
math core (default assigned first, then the three tests in source order). -/
def verdict (i : FinancialInputs) : String × String :=
  if monthlyCashFlow i > 0 ∧ cashOnCashReturn i ≥ 12 then
    ("Strong on paper", "strong")
  else if monthlyCashFlow i ≥ 0 ∧ cashOnCashReturn i ≥ 8 then
    ("Decent, stress-test it", "ok")
  else if monthlyCashFlow i < 0 then
    ("Negative cash flow — be cautious", "weak")
  else
    ("Borderline — cash flow is thin", "neutral")

/-- The record returned by `computeDeal`. -/
structure DealResult where
  monthlyMortgage : ℚ
  totalMonthlyExpenses : ℚ
  monthlyCashFlow : ℚ
  annualCashFlow : ℚ
  capRate : ℚ
  totalCashInvested : ℚ
  cashOnCashReturn : ℚ
  verdictLabel : String
  verdictTone : String
  maintVacancy : ℚ
deriving DecidableEq

/-- `computeDeal` from the second source file: no input guard, a full
result record is produced for every input. -/
def computeDeal (i : FinancialInputs) : DealResult :=
  { monthlyMortgage := monthlyMortgage i
    totalMonthlyExpenses := totalMonthlyExpenses i
    monthlyCashFlow := monthlyCashFlow i
    annualCashFlow := annualCashFlow i
    capRate := capRate i
    totalCashInvested := totalCashInvested i
    cashOnCashReturn := cashOnCashReturn i
    verdictLabel := (verdict i).1
    verdictTone := (verdict i).2
    maintVacancy := maintVacancy i }

end MathCore

namespace RentalRoi

/-! Shallow embedding of `computeDealFromInputs` (`src/tools/rental-roi.js`). -/

def downPaymentAmount (i : FinancialInputs) : ℚ :=
  i.purchasePrice * i.downPaymentPercent / 100

def loanAmount (i : FinancialInputs) : ℚ :=
  max (i.purchasePrice - downPaymentAmount i) 0

def nMonths (i : FinancialInputs) : ℕ := i.loanTermYears * 12

def monthlyRate (i : FinancialInputs) : ℚ :=
  if i.interestRate > 0 then i.interestRate / 100 / 12 else 0

def monthlyMortgage (i : FinancialInputs) : ℚ :=
  if loanAmount i > 0 ∧ nMonths i > 0 then
    if monthlyRate i > 0 then
      loanAmount i * monthlyRate i * (1 + monthlyRate i) ^ nMonths i /
        ((1 + monthlyRate i) ^ nMonths i - 1)
    else
      loanAmount i / (nMonths i : ℚ)
  else 0

def monthlyTaxes (i : FinancialInputs) : ℚ := i.annualTaxes / 12

def monthlyInsurance (i : FinancialInputs) : ℚ := i.annualInsurance / 12

def maintenanceVacancy (i : FinancialInputs) : ℚ :=
  i.monthlyRent * i.maintenancePercent / 100

def totalMonthlyExpenses (i : FinancialInputs) : ℚ :=
  monthlyMortgage i + monthlyTaxes i + monthlyInsurance i +
  i.monthlyHOA + maintenanceVacancy i + i.otherMonthly

def grossMonthlyIncome (i : FinancialInputs) : ℚ := i.monthlyRent

def monthlyCashFlow (i : FinancialInputs) : ℚ :=
  grossMonthlyIncome i - totalMonthlyExpenses i

def annualCashFlow (i : FinancialInputs) : ℚ := monthlyCashFlow i * 12

def monthlyOperatingExpensesExMortgage (i : FinancialInputs) : ℚ :=
  monthlyTaxes i + monthlyInsurance i + i.monthlyHOA +
  maintenanceVacancy i + i.otherMonthly

def monthlyNOI (i : FinancialInputs) : ℚ :=
  grossMonthlyIncome i - monthlyOperatingExpensesExMortgage i

def annualNOI (i : FinancialInputs) : ℚ := monthlyNOI i * 12

/-- `purchasePrice > 0 ? (annualNOI * 100) / purchasePrice : NaN`; the
`none` value models NaN. -/
def capRate (i : FinancialInputs) : Option ℚ :=
  if i.purchasePrice > 0 then some (annualNOI i * 100 / i.purchasePrice)
  else none

def closingCosts (i : FinancialInputs) : ℚ :=
  i.purchasePrice * i.closingCostsPercent / 100

def totalCashInvested (i : FinancialInputs) : ℚ :=
  downPaymentAmount i + closingCosts i + i.upfrontRepairs

/-- `totalCashInvested > 0 ? (annualCashFlow * 100) / totalCashInvested :
NaN`; the `none` value models NaN. -/
def cashOnCash (i : FinancialInputs) : Option ℚ :=
  if totalCashInvested i > 0 then
    some (annualCashFlow i * 100 / totalCashInvested i)
  else none

/-- Verdict label, explanation and tone, mirroring the first-match if/else
chain of `computeDealFromInputs` (default assigned first, then the three
tests in source order; the cash-on-cash comparison follows the JavaScript
NaN semantics via `geOnSome`). -/
def verdict (i : FinancialInputs) : String × String × String :=
  if monthlyCashFlow i < 0 then
    ("Negative cash flow – be cautious",
     "This deal loses money each month on these assumptions. It might still work if you expect strong appreciation, but it deserves a deeper look.",
     "bad")
  else if monthlyCashFlow i ≥ 0 ∧ monthlyCashFlow i < 200 then
    ("Barely cash-flow positive",
     "The deal just clears the expenses. A small change in taxes, insurance, or repairs could wipe out the profit.",
     "weak")
  else if monthlyCashFlow i ≥ 200 ∧ geOnSome (cashOnCash i) 8 = true then
    ("Strong on paper",
     "Solid monthly cash flow with a healthy cash-on-cash return on these assumptions.",
     "strong")
  else
    ("Tight cash flow – verify numbers",
     "Cash flow is thin. Double-check taxes, insurance, repairs, and rent assumptions.",
     "neutral")

/-- The derived part of the record returned by `computeDealFromInputs`
(the raw-input echo fields are omitted; they are copies of the argument). -/
structure DealRoi where
  downPaymentAmount : ℚ
  loanAmount : ℚ
  monthlyMortgage : ℚ
  monthlyTaxes : ℚ
  monthlyInsurance : ℚ
  maintenanceVacancy : ℚ
  totalMonthlyExpenses : ℚ
  grossMonthlyIncome : ℚ
  monthlyCashFlow : ℚ
  annualCashFlow : ℚ
  monthlyNOI : ℚ
  annualNOI : ℚ
  capRate : Option ℚ
  closingCosts : ℚ
  totalCashInvested : ℚ
  cashOnCash : Option ℚ
  verdictLabel : String
  verdictExplanation : String
  verdictTone : String
deriving DecidableEq

/-- `computeDealFromInputs` from `src/tools/rental-roi.js`: returns `null`
(modelled `none`) when `purchasePrice <= 0 || monthlyRent <= 0`, otherwise
the full metrics record. -/
def computeDealFromInputs (i : FinancialInputs) : Option DealRoi :=
  if i.purchasePrice ≤ 0 ∨ i.monthlyRent ≤ 0 then none
  else some
    { downPaymentAmount := downPaymentAmount i
      loanAmount := loanAmount i
      monthlyMortgage := monthlyMortgage i
      monthlyTaxes := monthlyTaxes i
      monthlyInsurance := monthlyInsurance i
      maintenanceVacancy := maintenanceVacancy i
      totalMonthlyExpenses := totalMonthlyExpenses i
      grossMonthlyIncome := grossMonthlyIncome i
      monthlyCashFlow := monthlyCashFlow i
      annualCashFlow := annualCashFlow i
      monthlyNOI := monthlyNOI i
      annualNOI := annualNOI i
      capRate := capRate i
      closingCosts := closingCosts i
      totalCashInvested := totalCashInvested i
      cashOnCash := cashOnCash i
      verdictLabel := (verdict i).1
      verdictExplanation := (verdict i).2.1
      verdictTone := (verdict i).2.2 }

end RentalRoi

namespace SubscribeApi

/-! Shallow embedding of the subscription proxy `handler` (second source
file).  The incoming request carries a method string and the optional
`email` field of the body (`none` models an absent field, `some ""` an
empty one; both are falsy in the source).  The external `fetch` of the
subscription service is a parameter: `Except.error` models a thrown
fetch failure, and a successful response carries its `ok` flag together
with the (itself fallible) `response.json()` outcome. -/

structure HandlerRequest where
  method : String
  email : Option String

structure FetchResponse (α : Type) where
  ok : Bool
  json : Except String α

/-- JSON bodies the handler can send back: a string error message, the
upstream data wrapped in an error object, or the success object. -/
inductive ApiBody (α : Type) where
  | errMsg : String → ApiBody α
  | errData : α → ApiBody α
  | success : α → ApiBody α
deriving DecidableEq

structure ApiResult (α : Type) where
  status : ℕ
  body : ApiBody α
deriving DecidableEq

/-- The `handler` function: method check, email truthiness check, then the
try/catch around `fetch` and `response.json()`, branching on `response.ok`
only after the body has been parsed, exactly as in the source. -/
def handler (α : Type) (fetchSub : Except String (FetchResponse α))
    (req : HandlerRequest) : ApiResult α :=
  if req.method ≠ "POST" then ⟨405, ApiBody.errMsg "Method not allowed"⟩
  else
    match req.email with
    | none => ⟨400, ApiBody.errMsg "Email is required"⟩
    | some email =>
      if email = "" then ⟨400, ApiBody.errMsg "Email is required"⟩
      else
        match fetchSub with
        | Except.error err => ⟨500, ApiBody.errMsg err⟩
        | Except.ok resp =>
          match resp.json with
          | Except.error err => ⟨500, ApiBody.errMsg err⟩
          | Except.ok data =>
            if resp.ok then ⟨200, ApiBody.success data⟩
            else ⟨400, ApiBody.errData data⟩

end SubscribeApi

namespace Persistence

/-! Shallow embedding of the persistence helpers in the second source file.
`localStorage.getItem` is a parameter `getItem : String → Option String`
(`none` models a missing key), and `JSON.parse` is a parameter
`parse : String → Except String α` whose `Except.error` models a thrown
parse failure; the catch block of the source converts it to `null`. -/

def STORAGE_KEY : String := "rentalROI-lastInputs"

/-- `loadLastInputs`: read the stored string; a missing key or an empty
string is falsy and yields `null`; a parse failure is caught and yields
`null`; otherwise the parsed value is returned. -/
def loadLastInputs (α : Type) (parse : String → Except String α)
    (getItem : String → Option String) : Option α :=
  match getItem STORAGE_KEY with
  | none => none
  | some raw =>
    if raw = "" then none
    else
      match parse raw with
      | Except.ok v => some v
      | Except.error _ => none

end Persistence

/-! Concrete inputs used to instantiate or refute the claims.  Field order:
purchasePrice, downPaymentPercent, interestRate, loanTermYears, monthlyRent,
annualTaxes, annualInsurance, monthlyHOA, maintenancePercent, otherMonthly,
closingCostsPercent, upfrontRepairs. -/

/-- Zero purchase price, positive rent: inside the guard region of the spec. -/
def ex1 : FinancialInputs := ⟨0, 0, 0, 0, 1000, 0, 0, 0, 0, 0, 0, 0⟩

/-- Loan of 120000 at zero interest over 10 years. -/
def ex2 : FinancialInputs := ⟨150000, 20, 0, 10, 1000, 0, 0, 0, 0, 0, 0, 0⟩

/-- Valid input whose total cash invested is zero. -/
def ex3 : FinancialInputs := ⟨100000, 0, 0, 0, 1000, 0, 0, 0, 0, 0, 0, 0⟩

/-- All-cash purchase with 100 of monthly cash flow and cash-on-cash 12. -/
def ex4 : FinancialInputs := ⟨10000, 100, 0, 0, 1000, 0, 0, 0, 0, 900, 0, 0⟩

/-- All-cash purchase with 1000 of monthly cash flow and cash-on-cash 120. -/
def i4w : FinancialInputs := ⟨10000, 100, 0, 0, 1000, 0, 0, 0, 0, 0, 0, 0⟩

/-- Fully financed purchase at 12 percent interest over one year. -/
def i5 : FinancialInputs := ⟨100000, 0, 12, 1, 1000, 0, 0, 0, 0, 0, 0, 0⟩

/-- Generic fully populated valid input. -/
def i6 : FinancialInputs := ⟨100000, 20, 5, 30, 1500, 1200, 600, 50, 5, 25, 2, 1000⟩

/-- The standard amortization scenario of the spec. -/
def ex7 : FinancialInputs := ⟨200000, 20, 6, 30, 1800, 2400, 1200, 0, 10, 0, 3, 5000⟩

/-- Down payment percent above 100. -/
def ex8 : FinancialInputs := ⟨100000, 150, 0, 0, 1000, 0, 0, 0, 0, 0, 0, 0⟩

/-- All-cash purchase with closing costs and upfront repairs. -/
def i8 : FinancialInputs := ⟨100000, 100, 0, 0, 1000, 0, 0, 0, 0, 0, 2, 1500⟩

/-- Concrete stand-in for JSON.parse used by the persistence witness. -/
def parse9 : String → Except String ℕ :=
  fun s => if s = "saved" then Except.ok 7 else Except.error "bad"

/-- Concrete stand-in for the local storage used by the persistence witness. -/
def store9 : String → Option String :=
  fun k => if k = Persistence.STORAGE_KEY then some "saved" else none

/-- Concrete non-POST request used by the handler witness. -/
def req10 : SubscribeApi.HandlerRequest := ⟨"GET", none⟩

/-- Concrete failing upstream fetch used by the handler witness. -/
def f10 : Except String (SubscribeApi.FetchResponse ℕ) := Except.error "downstream"

/-! Helper lemmas about the standard annuity payment, over an arbitrary
positive principal, positive monthly rate and nonzero number of payments. -/

/-- The amortizing payment with a positive rate is positive. -/
theorem annuity_pos (L r : ℚ) (n : ℕ) (hL : 0 < L) (hr : 0 < r) (hn : n ≠ 0) :
    0 < L * r * (1 + r) ^ n / ((1 + r) ^ n - 1) := by
  have hx : 1 < (1 + r) ^ n := one_lt_pow₀ (by linarith) hn
  have hd : 0 < (1 + r) ^ n - 1 := by linarith
  exact div_pos (mul_pos (mul_pos hL hr) (zero_lt_one.trans hx)) hd

/-- The amortizing payment with a positive rate strictly exceeds the
straight-line zero-interest payment over the same term. -/
theorem annuity_gt_straight (L r : ℚ) (n : ℕ) (hL : 0 < L) (hr : 0 < r) (hn : n ≠ 0) :
    L / (n : ℚ) < L * r * (1 + r) ^ n / ((1 + r) ^ n - 1) := by
  have hx : 1 < (1 + r) ^ n := one_lt_pow₀ (by linarith) hn
  have hd : 0 < (1 + r) ^ n - 1 := by linarith
  have hnq : 0 < (n : ℚ) := by exact_mod_cast Nat.pos_of_ne_zero hn
  have hgs : (∑ k ∈ Finset.range n, (1 + r) ^ k) * ((1 + r) - 1) = (1 + r) ^ n - 1 :=
    geom_sum_mul (1 + r) n
  have hsum : (∑ k ∈ Finset.range n, (1 + r) ^ k) < (n : ℚ) * (1 + r) ^ n := by
    calc (∑ k ∈ Finset.range n, (1 + r) ^ k)
        < ∑ _k ∈ Finset.range n, (1 + r) ^ n :=
          Finset.sum_lt_sum_of_nonempty (Finset.nonempty_range_iff.mpr hn)
            (fun k hk => pow_lt_pow_right₀ (by linarith) (Finset.mem_range.mp hk))
      _ = (n : ℚ) * (1 + r) ^ n := by
          rw [Finset.sum_const, Finset.card_range, nsmul_eq_mul]
  have key : (1 + r) ^ n - 1 < (n : ℚ) * (r * (1 + r) ^ n) := by
    have hm := mul_lt_mul_of_pos_right hsum hr
    calc (1 + r) ^ n - 1 = (∑ k ∈ Finset.range n, (1 + r) ^ k) * r := by
          rw [← hgs]; ring
      _ < (n : ℚ) * (1 + r) ^ n * r := hm
      _ = (n : ℚ) * (r * (1 + r) ^ n) := by ring
  rw [div_lt_div_iff₀ hnq hd]
  calc L * ((1 + r) ^ n - 1) < L * ((n : ℚ) * (r * (1 + r) ^ n)) :=
        mul_lt_mul_of_pos_left key hL
    _ = L * r * (1 + r) ^ n * (n : ℚ) := by ring

/-! Helper lemmas resolving the mortgage branches of the two variants. -/

/-- RentalRoi mortgage at a zero interest rate with a real loan and term:
the explicit straight-line branch fires. -/
theorem roi_mortgage_zero_rate (i : FinancialInputs) (hL : 0 < RentalRoi.loanAmount i)
    (ht : 0 < i.loanTermYears) (hr : i.interestRate = 0) :
    RentalRoi.monthlyMortgage i = RentalRoi.loanAmount i / (RentalRoi.nMonths i : ℚ) := by
  have hrate : RentalRoi.monthlyRate i = 0 := by
    rw [RentalRoi.monthlyRate, hr]; norm_num
  have hn : 0 < RentalRoi.nMonths i := by
    rw [RentalRoi.nMonths]; positivity
  rw [RentalRoi.monthlyMortgage, if_pos ⟨hL, hn⟩, if_neg (by rw [hrate]; exact lt_irrefl 0)]

/-- RentalRoi mortgage at a positive interest rate with a real loan and term:
the annuity branch fires. -/
theorem roi_mortgage_pos_rate (i : FinancialInputs) (hL : 0 < RentalRoi.loanAmount i)
    (ht : 0 < i.loanTermYears) (hr : 0 < i.interestRate) :
    RentalRoi.monthlyMortgage i =
      RentalRoi.loanAmount i * (i.interestRate / 100 / 12) *
        (1 + i.interestRate / 100 / 12) ^ (i.loanTermYears * 12) /
        ((1 + i.interestRate / 100 / 12) ^ (i.loanTermYears * 12) - 1) := by
  have hrate : RentalRoi.monthlyRate i = i.interestRate / 100 / 12 := by
    rw [RentalRoi.monthlyRate, if_pos hr]
  have hn : 0 < RentalRoi.nMonths i := by
    rw [RentalRoi.nMonths]; positivity
  rw [RentalRoi.monthlyMortgage, if_pos ⟨hL, hn⟩, if_pos (by rw [hrate]; positivity),
    hrate, RentalRoi.nMonths]

/-- MathCore mortgage when the interest rate is not positive: the guard
fails and the payment is zero, even for a positive loan and term. -/
theorem core_mortgage_zero_rate (i : FinancialInputs) (hr : i.interestRate = 0) :
    MathCore.monthlyMortgage i = 0 := by
  rw [MathCore.monthlyMortgage, if_neg]
  rintro ⟨-, hpos, -⟩
  rw [hr] at hpos
  exact lt_irrefl 0 hpos

/-- MathCore mortgage at a positive interest rate with a real loan and term:
the annuity branch fires. -/
theorem core_mortgage_pos_rate (i : FinancialInputs) (hL : 0 < MathCore.loanAmount i)
    (ht : 0 < i.loanTermYears) (hr : 0 < i.interestRate) :
    MathCore.monthlyMortgage i =
      MathCore.loanAmount i * (i.interestRate / 100 / 12) *
        (1 + i.interestRate / 100 / 12) ^ (i.loanTermYears * 12) /
        ((1 + i.interestRate / 100 / 12) ^ (i.loanTermYears * 12) - 1) := by
  rw [MathCore.monthlyMortgage, if_pos ⟨hL, hr, ht⟩]

/-- Claim C1 (counterexample): at a zero purchase price the math-core
variant still produces a full metrics record instead of failing, so the
guard claim is false of `computeDeal`. -/
theorem C1_counterexample :
    ex1.purchasePrice ≤ 0 ∧ MathCore.computeDeal ex1 =
      ⟨0, 0, 1000, 12000, 0, 0, 0, "Borderline — cash flow is thin", "neutral", 0⟩ := by
  constructor
  · norm_num [ex1]
  · simp only [MathCore.computeDeal, MathCore.monthlyMortgage, MathCore.totalMonthlyExpenses,
      MathCore.monthlyCashFlow, MathCore.annualCashFlow, MathCore.capRate,
      MathCore.totalCashInvested, MathCore.cashOnCashReturn, MathCore.verdict,
      MathCore.loanAmount, MathCore.downPaymentAmount, MathCore.monthlyTaxes,
      MathCore.monthlyInsurance, MathCore.maintVacancy, MathCore.grossMonthlyIncome,
      MathCore.annualNOI, MathCore.closingCostsAmount, ex1]
    norm_num

/-- Claim C1 (amended): the guard behaviour holds of `computeDealFromInputs`
in rental-roi.js, which returns null exactly when purchasePrice is
nonpositive or monthlyRent is nonpositive, and a full metrics record
otherwise; the `computeDeal` variant has no such guard. -/
theorem C1_amended (i : FinancialInputs) :
    RentalRoi.computeDealFromInputs i = none ↔
      i.purchasePrice ≤ 0 ∨ i.monthlyRent ≤ 0 := by
  unfold RentalRoi.computeDealFromInputs
  split <;> simp_all

/-- Claim C2 (amended): in `computeDealFromInputs`, for every valid input
with a positive loan amount, a positive term and a zero interest rate the
returned mortgage payment is loanAmount divided by the number of months. -/
theorem C2_amended (i : FinancialInputs) (hv : Valid i) (hL : 0 < RentalRoi.loanAmount i)
    (ht : 0 < i.loanTermYears) (hr : i.interestRate = 0) :
    (RentalRoi.computeDealFromInputs i).map (fun m => m.monthlyMortgage) =
      some (RentalRoi.loanAmount i / ((i.loanTermYears : ℚ) * 12)) := by
  rw [RentalRoi.computeDealFromInputs,
    if_neg (by push_neg; exact ⟨hv.1, hv.2.1⟩), Option.map_some']
  rw [roi_mortgage_zero_rate i hL ht hr, RentalRoi.nMonths]
  push_cast
  ring_nf

/-- Claim C2 (witness): the concrete zero-interest loan of 120000 over 10
years yields a payment of exactly 1000. -/
theorem C2_witness :
    Valid ex2 ∧ 0 < RentalRoi.loanAmount ex2 ∧ 0 < ex2.loanTermYears ∧
    ex2.interestRate = 0 ∧ RentalRoi.loanAmount ex2 = 120000 ∧
    (RentalRoi.computeDealFromInputs ex2).map (fun m => m.monthlyMortgage) = some 1000 := by
  have h1 : Valid ex2 := by norm_num [Valid, ex2]
  have hLv : RentalRoi.loanAmount ex2 = 120000 := by
    norm_num [RentalRoi.loanAmount, RentalRoi.downPaymentAmount, ex2]
  have h2 : 0 < RentalRoi.loanAmount ex2 := by rw [hLv]; norm_num
  have h3 : 0 < ex2.loanTermYears := by norm_num [ex2]
  have h4 : ex2.interestRate = 0 := by norm_num [ex2]
  have h5 := C2_amended ex2 h1 h2 h3 h4
  refine ⟨h1, h2, h3, h4, hLv, ?_⟩
  rw [h5, hLv]
  norm_num [ex2]

/-- Claim C2 (counterexample): the math-core variant has no zero-interest
branch; at the same loan of 120000 over 10 years with zero interest it
returns a payment of 0, not 1000. -/
theorem C2_counterexample :
    MathCore.loanAmount ex2 = 120000 ∧ ex2.interestRate = 0 ∧ ex2.loanTermYears = 10 ∧
    (MathCore.computeDeal ex2).monthlyMortgage = 0 ∧
    (MathCore.computeDeal ex2).monthlyMortgage ≠ 120000 / (10 * 12) := by
  have hm : (MathCore.computeDeal ex2).monthlyMortgage = 0 :=
    core_mortgage_zero_rate ex2 (by norm_num [ex2])
  refine ⟨by norm_num [MathCore.loanAmount, MathCore.downPaymentAmount, ex2],
    by norm_num [ex2], by norm_num [ex2], hm, ?_⟩
  rw [hm]; norm_num

/-- Claim C3 (counterexample): a valid input with zero total cash invested
makes `computeDealFromInputs` return NaN (modelled `none`) as its
cash-on-cash field rather than the finite value 0. -/
theorem C3_counterexample :
    Valid ex3 ∧ RentalRoi.totalCashInvested ex3 = 0 ∧
    (RentalRoi.computeDealFromInputs ex3).map (fun m => m.cashOnCash) = some none ∧
    some (none : Option ℚ) ≠ some (some (0 : ℚ)) := by
  have htci : RentalRoi.totalCashInvested ex3 = 0 := by
    norm_num [RentalRoi.totalCashInvested, RentalRoi.downPaymentAmount,
      RentalRoi.closingCosts, ex3]
  refine ⟨by norm_num [Valid, ex3], htci, ?_, by simp⟩
  rw [RentalRoi.computeDealFromInputs, if_neg (by norm_num [ex3]), Option.map_some']
  rw [RentalRoi.cashOnCash, if_neg (by rw [htci]; exact lt_irrefl 0)]

/-- Claim C3 (amended): the zero-cash guard producing 0 holds of the
math-core variant; in rental-roi.js the NaN branch of the cap rate is
unreachable for valid inputs and the cash-on-cash value is an actual
number whenever any cash is invested, but it is NaN when the total cash
invested is zero. -/
theorem C3_amended (i : FinancialInputs) (hv : Valid i) :
    (MathCore.totalCashInvested i = 0 → (MathCore.computeDeal i).cashOnCashReturn = 0) ∧
    (RentalRoi.capRate i).isSome = true ∧
    (0 < RentalRoi.totalCashInvested i → (RentalRoi.cashOnCash i).isSome = true) := by
  refine ⟨?_, ?_, ?_⟩
  · intro h
    show MathCore.cashOnCashReturn i = 0
    rw [MathCore.cashOnCashReturn, if_neg (by rw [h]; exact lt_irrefl 0)]
  · rw [RentalRoi.capRate, if_pos hv.1]; rfl
  · intro h
    rw [RentalRoi.cashOnCash, if_pos h]; rfl

/-- Claim C3 (witness): at the concrete valid zero-cash input the math-core
variant reports a cash-on-cash return of 0. -/
theorem C3_witness :
    Valid ex3 ∧ MathCore.totalCashInvested ex3 = 0 ∧
    (MathCore.computeDeal ex3).cashOnCashReturn = 0 := by
  have h1 : Valid ex3 := by norm_num [Valid, ex3]
  have h2 : MathCore.totalCashInvested ex3 = 0 := by
    norm_num [MathCore.totalCashInvested, MathCore.downPaymentAmount,
      MathCore.closingCostsAmount, ex3]
  exact ⟨h1, h2, (C3_amended ex3 h1).1 h2⟩

/-- Claim C4 (counterexample): a valid input with positive cash flow of 100
and cash-on-cash exactly 12 is labelled by `computeDealFromInputs` as
Barely cash-flow positive, not as the Strong category required by the
claimed rule set, so the claimed verdict rules are false of that variant. -/
theorem C4_counterexample :
    Valid ex4 ∧
    (RentalRoi.computeDealFromInputs ex4).map
        (fun m => (m.monthlyCashFlow, m.cashOnCash, m.verdictLabel)) =
      some (100, some 12, "Barely cash-flow positive") ∧
    (0 : ℚ) < 100 ∧ (12 : ℚ) ≤ 12 ∧
    "Barely cash-flow positive" ≠ "Strong on paper" := by
  refine ⟨by norm_num [Valid, ex4], ?_, by norm_num, le_refl _, by decide⟩
  simp only [RentalRoi.computeDealFromInputs, RentalRoi.downPaymentAmount,
    RentalRoi.loanAmount, RentalRoi.nMonths, RentalRoi.monthlyRate, RentalRoi.monthlyMortgage,
    RentalRoi.monthlyTaxes, RentalRoi.monthlyInsurance, RentalRoi.maintenanceVacancy,
    RentalRoi.totalMonthlyExpenses, RentalRoi.grossMonthlyIncome, RentalRoi.monthlyCashFlow,
    RentalRoi.annualCashFlow, RentalRoi.monthlyOperatingExpensesExMortgage,
    RentalRoi.monthlyNOI, RentalRoi.annualNOI, RentalRoi.capRate, RentalRoi.closingCosts,
    RentalRoi.totalCashInvested, RentalRoi.cashOnCash, RentalRoi.verdict, geOnSome, ex4]
  norm_num

/-- Claim C4 (amended): the claimed ordered first-match verdict rules,
including the inclusive Decent boundary, hold of the math-core variant
`computeDeal`; rental-roi.js uses a different rule set. -/
theorem C4_amended (i : FinancialInputs) (hv : Valid i) :
    ((0 < MathCore.monthlyCashFlow i ∧ 12 ≤ MathCore.cashOnCashReturn i) →
      (MathCore.computeDeal i).verdictLabel = "Strong on paper") ∧
    (¬(0 < MathCore.monthlyCashFlow i ∧ 12 ≤ MathCore.cashOnCashReturn i) →
      0 ≤ MathCore.monthlyCashFlow i → 8 ≤ MathCore.cashOnCashReturn i →
      (MathCore.computeDeal i).verdictLabel = "Decent, stress-test it") ∧
    (¬(0 < MathCore.monthlyCashFlow i ∧ 12 ≤ MathCore.cashOnCashReturn i) →
      ¬(0 ≤ MathCore.monthlyCashFlow i ∧ 8 ≤ MathCore.cashOnCashReturn i) →
      MathCore.monthlyCashFlow i < 0 →
      (MathCore.computeDeal i).verdictLabel = "Negative cash flow — be cautious") ∧
    (¬(0 < MathCore.monthlyCashFlow i ∧ 12 ≤ MathCore.cashOnCashReturn i) →
      ¬(0 ≤ MathCore.monthlyCashFlow i ∧ 8 ≤ MathCore.cashOnCashReturn i) →
      ¬(MathCore.monthlyCashFlow i < 0) →
      (MathCore.computeDeal i).verdictLabel = "Borderline — cash flow is thin") ∧
    ((MathCore.monthlyCashFlow i = 0 ∧ MathCore.cashOnCashReturn i = 8) →
      (MathCore.computeDeal i).verdictLabel = "Decent, stress-test it") := by
  refine ⟨?_, ?_, ?_, ?_, ?_⟩
  · intro h
    show (MathCore.verdict i).1 = _
    rw [MathCore.verdict, if_pos h]
  · intro h1 h2 h3
    show (MathCore.verdict i).1 = _
    rw [MathCore.verdict, if_neg h1, if_pos ⟨h2, h3⟩]
  · intro h1 h2 h3
    show (MathCore.verdict i).1 = _
    rw [MathCore.verdict, if_neg h1, if_neg h2, if_pos h3]
  · intro h1 h2 h3
    show (MathCore.verdict i).1 = _
    rw [MathCore.verdict, if_neg h1, if_neg h2, if_neg h3]
  · rintro ⟨h0, h8⟩
    show (MathCore.verdict i).1 = _
    rw [MathCore.verdict, if_neg (by rw [h0]; rintro ⟨hc, -⟩; exact lt_irrefl 0 hc),
      if_pos ⟨h0.ge, h8.ge⟩]

/-- Claim C4 (witness): a concrete valid all-cash input with cash flow 1000
and cash-on-cash 120 is labelled Strong on paper by the math core. -/
theorem C4_witness :
    Valid i4w ∧ (MathCore.computeDeal i4w).verdictLabel = "Strong on paper" := by
  have h1 : Valid i4w := by norm_num [Valid, i4w]
  refine ⟨h1, (C4_amended i4w h1).1 ⟨?_, ?_⟩⟩
  · norm_num [MathCore.monthlyCashFlow, MathCore.grossMonthlyIncome,
      MathCore.totalMonthlyExpenses, MathCore.monthlyMortgage, MathCore.loanAmount,
      MathCore.downPaymentAmount, MathCore.monthlyTaxes, MathCore.monthlyInsurance,
      MathCore.maintVacancy, i4w]
  · norm_num [MathCore.cashOnCashReturn, MathCore.totalCashInvested,
      MathCore.downPaymentAmount, MathCore.closingCostsAmount, MathCore.annualCashFlow,
      MathCore.monthlyCashFlow, MathCore.grossMonthlyIncome, MathCore.totalMonthlyExpenses,
      MathCore.monthlyMortgage, MathCore.loanAmount, MathCore.monthlyTaxes,
      MathCore.monthlyInsurance, MathCore.maintVacancy, i4w]

/-- Claim C5: in both variants the cap rate equals
100 × (12 × rent − (annualTaxes + annualInsurance + 12 × HOA +
12 × maintenanceVacancy + 12 × otherMonthly)) / purchasePrice, and for two
valid inputs differing only in the interest rate (positive versus zero,
with a positive loan amount and term) the loan amount and cap rate are
unchanged while the monthly cash flow differs. -/
theorem C5_theorem (i : FinancialInputs) (hv : Valid i) :
    (RentalRoi.capRate i =
        some (100 * (12 * i.monthlyRent -
          (i.annualTaxes + i.annualInsurance + 12 * i.monthlyHOA +
           12 * RentalRoi.maintenanceVacancy i + 12 * i.otherMonthly)) / i.purchasePrice) ∧
      MathCore.capRate i =
        100 * (12 * i.monthlyRent -
          (i.annualTaxes + i.annualInsurance + 12 * i.monthlyHOA +
           12 * MathCore.maintVacancy i + 12 * i.otherMonthly)) / i.purchasePrice) ∧
    (0 < i.interestRate → 0 < MathCore.loanAmount i → 0 < i.loanTermYears →
      (RentalRoi.loanAmount { i with interestRate := 0 } = RentalRoi.loanAmount i ∧
       MathCore.loanAmount { i with interestRate := 0 } = MathCore.loanAmount i ∧
       RentalRoi.capRate { i with interestRate := 0 } = RentalRoi.capRate i ∧
       MathCore.capRate { i with interestRate := 0 } = MathCore.capRate i ∧
       RentalRoi.monthlyCashFlow { i with interestRate := 0 } ≠ RentalRoi.monthlyCashFlow i ∧
       (MathCore.computeDeal { i with interestRate := 0 }).monthlyCashFlow ≠
         (MathCore.computeDeal i).monthlyCashFlow)) := by
  constructor
  · constructor
    · rw [RentalRoi.capRate, if_pos hv.1]
      refine congrArg some ?_
      rw [RentalRoi.annualNOI, RentalRoi.monthlyNOI, RentalRoi.grossMonthlyIncome,
        RentalRoi.monthlyOperatingExpensesExMortgage, RentalRoi.monthlyTaxes,
        RentalRoi.monthlyInsurance]
      ring
    · rw [MathCore.capRate, if_pos hv.1, MathCore.annualNOI, MathCore.grossMonthlyIncome]
      ring
  · intro hir hL ht
    have hr_pos : 0 < i.interestRate / 100 / 12 := by
      have h1 : 0 < i.interestRate / 100 := div_pos hir (by norm_num)
      exact div_pos h1 (by norm_num)
    have hn_ne : i.loanTermYears * 12 ≠ 0 := by omega
    have hsub : i.purchasePrice - RentalRoi.downPaymentAmount i = MathCore.loanAmount i := by
      rw [RentalRoi.downPaymentAmount, MathCore.loanAmount, MathCore.downPaymentAmount]
      ring
    have hLroi : RentalRoi.loanAmount i = MathCore.loanAmount i := by
      rw [RentalRoi.loanAmount, hsub, max_eq_left hL.le]
    have hLroi_pos : 0 < RentalRoi.loanAmount i := by rw [hLroi]; exact hL
    have hMi_roi := roi_mortgage_pos_rate i hLroi_pos ht hir
    have hMj_roi : RentalRoi.monthlyMortgage { i with interestRate := 0 } =
        RentalRoi.loanAmount i / ((i.loanTermYears * 12 : ℕ) : ℚ) :=
      roi_mortgage_zero_rate { i with interestRate := 0 } hLroi_pos ht rfl
    have hlt_roi : RentalRoi.monthlyMortgage { i with interestRate := 0 } <
        RentalRoi.monthlyMortgage i := by
      rw [hMj_roi, hMi_roi]
      exact annuity_gt_straight (RentalRoi.loanAmount i) (i.interestRate / 100 / 12)
        (i.loanTermYears * 12) hLroi_pos hr_pos hn_ne
    have hcf_roi : RentalRoi.monthlyCashFlow { i with interestRate := 0 } -
        RentalRoi.monthlyCashFlow i =
        RentalRoi.monthlyMortgage i - RentalRoi.monthlyMortgage { i with interestRate := 0 } := by
      simp only [RentalRoi.monthlyCashFlow, RentalRoi.totalMonthlyExpenses,
        RentalRoi.grossMonthlyIncome, RentalRoi.monthlyTaxes, RentalRoi.monthlyInsurance,
        RentalRoi.maintenanceVacancy]
      ring
    have hne_roi : RentalRoi.monthlyCashFlow { i with interestRate := 0 } ≠
        RentalRoi.monthlyCashFlow i := by
      intro he
      rw [he, sub_self] at hcf_roi
      linarith
    have hMj_core : MathCore.monthlyMortgage { i with interestRate := 0 } = 0 :=
      core_mortgage_zero_rate { i with interestRate := 0 } rfl
    have hMi_core_pos : 0 < MathCore.monthlyMortgage i := by
      rw [core_mortgage_pos_rate i hL ht hir]
      exact annuity_pos (MathCore.loanAmount i) (i.interestRate / 100 / 12)
        (i.loanTermYears * 12) hL hr_pos hn_ne
    have hcf_core : MathCore.monthlyCashFlow { i with interestRate := 0 } -
        MathCore.monthlyCashFlow i =
        MathCore.monthlyMortgage i - MathCore.monthlyMortgage { i with interestRate := 0 } := by
      simp only [MathCore.monthlyCashFlow, MathCore.totalMonthlyExpenses,
        MathCore.grossMonthlyIncome, MathCore.monthlyTaxes, MathCore.monthlyInsurance,
        MathCore.maintVacancy]
      ring
    have hne_core : (MathCore.computeDeal { i with interestRate := 0 }).monthlyCashFlow ≠
        (MathCore.computeDeal i).monthlyCashFlow := by
      show MathCore.monthlyCashFlow { i with interestRate := 0 } ≠ MathCore.monthlyCashFlow i
      intro he
      rw [he, sub_self] at hcf_core
      rw [hMj_core] at hcf_core
      linarith
    exact ⟨rfl, rfl, rfl, rfl, hne_roi, hne_core⟩

/-- Claim C5 (witness): a concrete fully financed loan at 12 percent over
one year has a different monthly cash flow from the same input at zero
interest. -/
theorem C5_witness :
    Valid i5 ∧ 0 < i5.interestRate ∧ 0 < MathCore.loanAmount i5 ∧ 0 < i5.loanTermYears ∧
    (MathCore.computeDeal { i5 with interestRate := 0 }).monthlyCashFlow ≠
      (MathCore.computeDeal i5).monthlyCashFlow := by
  have h1 : Valid i5 := by norm_num [Valid, i5]
  have h2 : 0 < i5.interestRate := by norm_num [i5]
  have h3 : 0 < MathCore.loanAmount i5 := by
    norm_num [MathCore.loanAmount, MathCore.downPaymentAmount, i5]
  have h4 : 0 < i5.loanTermYears := by norm_num [i5]
  exact ⟨h1, h2, h3, h4, ((C5_theorem i5 h1).2 h2 h3 h4).2.2.2.2.2⟩

/-- Claim C6: for every valid input, both variants satisfy the expense-sum,
cash-flow and annualization invariants on their returned records. -/
theorem C6_theorem (i : FinancialInputs) (hv : Valid i) :
    (∀ m, RentalRoi.computeDealFromInputs i = some m →
      (m.totalMonthlyExpenses = m.monthlyMortgage + m.monthlyTaxes + m.monthlyInsurance +
        i.monthlyHOA + m.maintenanceVacancy + i.otherMonthly ∧
       m.monthlyCashFlow = i.monthlyRent - m.totalMonthlyExpenses ∧
       m.annualCashFlow = 12 * m.monthlyCashFlow)) ∧
    ((MathCore.computeDeal i).totalMonthlyExpenses =
        (MathCore.computeDeal i).monthlyMortgage + MathCore.monthlyTaxes i +
        MathCore.monthlyInsurance i + i.monthlyHOA + (MathCore.computeDeal i).maintVacancy +
        i.otherMonthly ∧
     (MathCore.computeDeal i).monthlyCashFlow =
        i.monthlyRent - (MathCore.computeDeal i).totalMonthlyExpenses ∧
     (MathCore.computeDeal i).annualCashFlow = 12 * (MathCore.computeDeal i).monthlyCashFlow) := by
  constructor
  · intro m hm
    rw [RentalRoi.computeDealFromInputs, if_neg (by push_neg; exact ⟨hv.1, hv.2.1⟩)] at hm
    cases hm
    refine ⟨rfl, rfl, ?_⟩
    rw [RentalRoi.annualCashFlow]
    ring
  · refine ⟨rfl, rfl, ?_⟩
    show MathCore.annualCashFlow i = 12 * MathCore.monthlyCashFlow i
    rw [MathCore.annualCashFlow]
    ring

/-- Claim C6 (witness): the invariants at a concrete fully populated input. -/
theorem C6_witness :
    Valid i6 ∧
    (MathCore.computeDeal i6).annualCashFlow = 12 * (MathCore.computeDeal i6).monthlyCashFlow := by
  have h1 : Valid i6 := by norm_num [Valid, i6]
  exact ⟨h1, (C6_theorem i6 h1).2.2.2⟩

/-! Numeric helper lemmas for the standard amortization scenario `ex7`:
the exact monthly payment is 800 × (201/200)^360 / ((201/200)^360 − 1),
which lies strictly between 959.27 and 959.29. -/

theorem loan7_roi : RentalRoi.loanAmount ex7 = 160000 := by
  norm_num [RentalRoi.loanAmount, RentalRoi.downPaymentAmount, ex7]

theorem loan7_core : MathCore.loanAmount ex7 = 160000 := by
  norm_num [MathCore.loanAmount, MathCore.downPaymentAmount, ex7]

theorem pay7_roi_eq : RentalRoi.monthlyMortgage ex7 =
    800 * (201 / 200 : ℚ) ^ 360 / ((201 / 200 : ℚ) ^ 360 - 1) := by
  have hn : RentalRoi.nMonths ex7 = 360 := by norm_num [RentalRoi.nMonths, ex7]
  have hr : RentalRoi.monthlyRate ex7 = 1 / 200 := by
    rw [RentalRoi.monthlyRate, if_pos (by norm_num [ex7])]
    norm_num [ex7]
  rw [RentalRoi.monthlyMortgage, loan7_roi, hn, hr]
  norm_num

theorem pay7_core_eq : MathCore.monthlyMortgage ex7 =
    800 * (201 / 200 : ℚ) ^ 360 / ((201 / 200 : ℚ) ^ 360 - 1) := by
  rw [MathCore.monthlyMortgage, if_pos ⟨by rw [loan7_core]; norm_num,
    by norm_num [ex7], by norm_num [ex7]⟩, loan7_core]
  norm_num [ex7]

set_option maxHeartbeats 1000000 in
theorem pay7_lb : (95927 : ℚ) / 100 < 800 * (201 / 200 : ℚ) ^ 360 / ((201 / 200 : ℚ) ^ 360 - 1) := by
  norm_num

set_option maxHeartbeats 1000000 in
theorem pay7_ub : 800 * (201 / 200 : ℚ) ^ 360 / ((201 / 200 : ℚ) ^ 360 - 1) < (95929 : ℚ) / 100 := by
  norm_num

theorem cf7_roi : RentalRoi.monthlyCashFlow ex7 = 1320 - RentalRoi.monthlyMortgage ex7 := by
  simp only [RentalRoi.monthlyCashFlow, RentalRoi.totalMonthlyExpenses,
    RentalRoi.grossMonthlyIncome, RentalRoi.monthlyTaxes, RentalRoi.monthlyInsurance,
    RentalRoi.maintenanceVacancy, ex7]
  ring

theorem cf7_core : MathCore.monthlyCashFlow ex7 = 1320 - MathCore.monthlyMortgage ex7 := by
  simp only [MathCore.monthlyCashFlow, MathCore.totalMonthlyExpenses,
    MathCore.grossMonthlyIncome, MathCore.monthlyTaxes, MathCore.monthlyInsurance,
    MathCore.maintVacancy, ex7]
  ring

theorem tci7_roi : RentalRoi.totalCashInvested ex7 = 51000 := by
  norm_num [RentalRoi.totalCashInvested, RentalRoi.downPaymentAmount,
    RentalRoi.closingCosts, ex7]

theorem tci7_core : MathCore.totalCashInvested ex7 = 51000 := by
  norm_num [MathCore.totalCashInvested, MathCore.downPaymentAmount,
    MathCore.closingCostsAmount, ex7]

theorem cf7_core_bounds :
    (360 : ℚ) < MathCore.monthlyCashFlow ex7 ∧ MathCore.monthlyCashFlow ex7 < 361 := by
  have h1 := pay7_lb
  have h2 := pay7_ub
  rw [cf7_core, pay7_core_eq]
  constructor <;> linarith

theorem cf7_roi_bounds :
    (360 : ℚ) < RentalRoi.monthlyCashFlow ex7 ∧ RentalRoi.monthlyCashFlow ex7 < 361 := by
  have h1 := pay7_lb
  have h2 := pay7_ub
  rw [cf7_roi, pay7_roi_eq]
  constructor <;> linarith

theorem verdict7_core : (MathCore.computeDeal ex7).verdictLabel = "Decent, stress-test it" := by
  obtain ⟨hcf1, hcf2⟩ := cf7_core_bounds
  have hcoc : MathCore.cashOnCashReturn ex7 =
      MathCore.monthlyCashFlow ex7 * 12 / 51000 * 100 := by
    rw [MathCore.cashOnCashReturn, tci7_core, if_pos (by norm_num), MathCore.annualCashFlow]
  have hcoc1 : (8 : ℚ) ≤ MathCore.cashOnCashReturn ex7 := by rw [hcoc]; linarith
  have hcoc2 : MathCore.cashOnCashReturn ex7 < 12 := by rw [hcoc]; linarith
  show (MathCore.verdict ex7).1 = _
  rw [MathCore.verdict, if_neg (fun h => absurd h.2 (not_le.mpr hcoc2)),
    if_pos ⟨by linarith, hcoc1⟩]

theorem verdict7_roi :
    (RentalRoi.computeDealFromInputs ex7).map (fun m => m.verdictLabel) =
      some "Strong on paper" := by
  obtain ⟨hcf1, hcf2⟩ := cf7_roi_bounds
  have hcoc : RentalRoi.cashOnCash ex7 =
      some (RentalRoi.monthlyCashFlow ex7 * 12 * 100 / 51000) := by
    rw [RentalRoi.cashOnCash, tci7_roi, if_pos (by norm_num), RentalRoi.annualCashFlow]
  have hge : geOnSome (RentalRoi.cashOnCash ex7) 8 = true := by
    rw [hcoc]
    simp only [geOnSome]
    exact decide_eq_true (by linarith)
  rw [RentalRoi.computeDealFromInputs, if_neg (by norm_num [ex7]), Option.map_some']
  show some (RentalRoi.verdict ex7).1 = _
  rw [RentalRoi.verdict, if_neg (not_lt.mpr (by linarith)),
    if_neg (fun h => absurd h.2 (not_lt.mpr (by linarith))),
    if_pos ⟨by linarith, hge⟩]

/-- Claim C7 (counterexample): at the standard amortization scenario the
computed cash flow is positive, so neither variant returns a Negative or
Borderline verdict: the math core answers Decent and rental-roi.js answers
Strong on paper. -/
theorem C7_counterexample :
    (MathCore.computeDeal ex7).verdictLabel = "Decent, stress-test it" ∧
    (MathCore.computeDeal ex7).verdictLabel ≠ "Negative cash flow — be cautious" ∧
    (MathCore.computeDeal ex7).verdictLabel ≠ "Borderline — cash flow is thin" ∧
    (RentalRoi.computeDealFromInputs ex7).map (fun m => m.verdictLabel) =
      some "Strong on paper" ∧
    (RentalRoi.computeDealFromInputs ex7).map (fun m => m.verdictLabel) ≠
      some "Negative cash flow – be cautious" ∧
    (RentalRoi.computeDealFromInputs ex7).map (fun m => m.verdictLabel) ≠
      some "Tight cash flow – verify numbers" := by
  refine ⟨verdict7_core, ?_, ?_, verdict7_roi, ?_, ?_⟩
  · rw [verdict7_core]; decide
  · rw [verdict7_core]; decide
  · rw [verdict7_roi]; decide
  · rw [verdict7_roi]; decide

/-- Claim C7 (amended): the scenario yields loanAmount 160000 in both
variants and a monthly payment within 0.01 of 959.28, but the monthly cash
flow is positive (between 360 and 361), so the verdict is Decent in the
math core and Strong on paper in rental-roi.js, not Negative or
Borderline. -/
theorem C7_amended :
    RentalRoi.loanAmount ex7 = 160000 ∧ MathCore.loanAmount ex7 = 160000 ∧
    (95927 : ℚ) / 100 < RentalRoi.monthlyMortgage ex7 ∧
    RentalRoi.monthlyMortgage ex7 < (95929 : ℚ) / 100 ∧
    MathCore.monthlyMortgage ex7 = RentalRoi.monthlyMortgage ex7 ∧
    0 < MathCore.monthlyCashFlow ex7 ∧
    (MathCore.computeDeal ex7).verdictLabel = "Decent, stress-test it" ∧
    (RentalRoi.computeDealFromInputs ex7).map (fun m => m.verdictLabel) =
      some "Strong on paper" := by
  refine ⟨loan7_roi, loan7_core, ?_, ?_, ?_, ?_, verdict7_core, verdict7_roi⟩
  · rw [pay7_roi_eq]; exact pay7_lb
  · rw [pay7_roi_eq]; exact pay7_ub
  · rw [pay7_core_eq, pay7_roi_eq]
  · have := cf7_core_bounds.1; linarith

/-- Claim C8 (counterexample): with a down payment percent of 150 the
math-core loan amount is the unclamped negative value, so the claimed
clamping at zero is false of `computeDeal`. -/
theorem C8_counterexample :
    Valid ex8 ∧ MathCore.loanAmount ex8 = -50000 ∧
    MathCore.loanAmount ex8 ≠ max (ex8.purchasePrice - MathCore.downPaymentAmount ex8) 0 := by
  have hL : MathCore.loanAmount ex8 = -50000 := by
    norm_num [MathCore.loanAmount, MathCore.downPaymentAmount, ex8]
  refine ⟨by norm_num [Valid, ex8], hL, ?_⟩
  rw [hL]
  norm_num [MathCore.downPaymentAmount, ex8]

/-- Claim C8 (amended): the clamped formula holds of rental-roi.js, where
loanAmount is max(purchasePrice − downPaymentAmount, 0); the math core
leaves the difference unclamped.  In the all-cash case both variants give
loan 0, payment 0, and totalCashInvested = purchasePrice + closing costs +
upfront repairs. -/
theorem C8_amended (i : FinancialInputs) (hv : Valid i) :
    (RentalRoi.computeDealFromInputs i).map (fun m => m.loanAmount) =
      some (max (i.purchasePrice - i.purchasePrice * i.downPaymentPercent / 100) 0) ∧
    (i.downPaymentPercent = 100 →
      (RentalRoi.loanAmount i = 0 ∧ MathCore.loanAmount i = 0 ∧
       RentalRoi.monthlyMortgage i = 0 ∧ MathCore.monthlyMortgage i = 0 ∧
       RentalRoi.totalCashInvested i =
         i.purchasePrice + RentalRoi.closingCosts i + i.upfrontRepairs ∧
       MathCore.totalCashInvested i =
         i.purchasePrice + MathCore.closingCostsAmount i + i.upfrontRepairs)) := by
  constructor
  · rw [RentalRoi.computeDealFromInputs, if_neg (by push_neg; exact ⟨hv.1, hv.2.1⟩),
      Option.map_some']
    rfl
  · intro h
    have hdp_roi : RentalRoi.downPaymentAmount i = i.purchasePrice := by
      rw [RentalRoi.downPaymentAmount, h]; ring
    have hdp_core : MathCore.downPaymentAmount i = i.purchasePrice := by
      rw [MathCore.downPaymentAmount, h]; ring
    have hL_roi : RentalRoi.loanAmount i = 0 := by
      rw [RentalRoi.loanAmount, hdp_roi]; simp
    have hL_core : MathCore.loanAmount i = 0 := by
      rw [MathCore.loanAmount, hdp_core]; ring
    refine ⟨hL_roi, hL_core, ?_, ?_, ?_, ?_⟩
    · rw [RentalRoi.monthlyMortgage, if_neg]
      rintro ⟨hc, -⟩
      rw [hL_roi] at hc
      exact lt_irrefl 0 hc
    · rw [MathCore.monthlyMortgage, if_neg]
      rintro ⟨hc, -⟩
      rw [hL_core] at hc
      exact lt_irrefl 0 hc
    · rw [RentalRoi.totalCashInvested, hdp_roi]
    · rw [MathCore.totalCashInvested, hdp_core]

/-- Claim C8 (witness): the all-cash consequences at a concrete input with
closing costs of 2 percent and 1500 of upfront repairs. -/
theorem C8_witness :
    Valid i8 ∧ i8.downPaymentPercent = 100 ∧
    MathCore.totalCashInvested i8 =
      i8.purchasePrice + MathCore.closingCostsAmount i8 + i8.upfrontRepairs := by
  have h1 : Valid i8 := by norm_num [Valid, i8]
  exact ⟨h1, rfl, (((C8_amended i8 h1).2 rfl).2.2.2.2.2)⟩

/-- Claim C9: restoring persisted inputs never fails: a missing key yields
null, a stored string whose parse throws yields null via the catch block,
and a nonempty well-formed stored string yields the parsed value. -/
theorem C9_theorem (α : Type) (parse : String → Except String α)
    (getItem : String → Option String) :
    (getItem Persistence.STORAGE_KEY = none →
      Persistence.loadLastInputs α parse getItem = none) ∧
    (∀ raw e, getItem Persistence.STORAGE_KEY = some raw → parse raw = Except.error e →
      Persistence.loadLastInputs α parse getItem = none) ∧
    (∀ raw v, getItem Persistence.STORAGE_KEY = some raw → raw ≠ "" → parse raw = Except.ok v →
      Persistence.loadLastInputs α parse getItem = some v) := by
  refine ⟨?_, ?_, ?_⟩
  · intro h
    simp [Persistence.loadLastInputs, h]
  · intro raw e h1 h2
    by_cases hr : raw = "" <;> simp [Persistence.loadLastInputs, h1, h2, hr]
  · intro raw v h1 hne h2
    simp [Persistence.loadLastInputs, h1, h2, hne]

/-- Claim C9 (witness): a concrete store holding the parseable string under
the fixed key restores the parsed value. -/
theorem C9_witness :
    store9 Persistence.STORAGE_KEY = some "saved" ∧ "saved" ≠ "" ∧
    parse9 "saved" = Except.ok 7 ∧
    Persistence.loadLastInputs ℕ parse9 store9 = some 7 := by
  refine ⟨by simp [store9], by decide, by simp [parse9], ?_⟩
  exact (C9_theorem ℕ parse9 store9).2.2 "saved" 7 (by simp [store9]) (by decide)
    (by simp [parse9])

/-- Claim C10: the subscription proxy handler is total and catches every
failure: non-POST requests get 405 and missing or empty emails get 400,
in both cases with a result that does not depend on the upstream fetch at
all; a thrown fetch or body-parse failure is caught as a 500 with the
error message; a non-ok upstream response yields 400 wrapping the upstream
data; an ok response yields 200. -/
theorem C10_theorem (α : Type) (f : Except String (SubscribeApi.FetchResponse α))
    (req : SubscribeApi.HandlerRequest) :
    (req.method ≠ "POST" →
      SubscribeApi.handler α f req = ⟨405, SubscribeApi.ApiBody.errMsg "Method not allowed"⟩) ∧
    (req.method ≠ "POST" → ∀ g, SubscribeApi.handler α f req = SubscribeApi.handler α g req) ∧
    (req.method = "POST" → (req.email = none ∨ req.email = some "") →
      SubscribeApi.handler α f req = ⟨400, SubscribeApi.ApiBody.errMsg "Email is required"⟩) ∧
    (req.method = "POST" → (req.email = none ∨ req.email = some "") →
      ∀ g, SubscribeApi.handler α f req = SubscribeApi.handler α g req) ∧
    (∀ e msg, req.method = "POST" → req.email = some e → e ≠ "" → f = Except.error msg →
      SubscribeApi.handler α f req = ⟨500, SubscribeApi.ApiBody.errMsg msg⟩) ∧
    (∀ e resp msg, req.method = "POST" → req.email = some e → e ≠ "" → f = Except.ok resp →
      resp.json = Except.error msg →
      SubscribeApi.handler α f req = ⟨500, SubscribeApi.ApiBody.errMsg msg⟩) ∧
    (∀ e resp d, req.method = "POST" → req.email = some e → e ≠ "" → f = Except.ok resp →
      resp.json = Except.ok d → resp.ok = false →
      SubscribeApi.handler α f req = ⟨400, SubscribeApi.ApiBody.errData d⟩) ∧
    (∀ e resp d, req.method = "POST" → req.email = some e → e ≠ "" → f = Except.ok resp →
      resp.json = Except.ok d → resp.ok = true →
      SubscribeApi.handler α f req = ⟨200, SubscribeApi.ApiBody.success d⟩) := by
  refine ⟨?_, ?_, ?_, ?_, ?_, ?_, ?_, ?_⟩
  · intro h
    simp [SubscribeApi.handler, h]
  · intro h g
    simp [SubscribeApi.handler, h]
  · intro h he
    rcases he with he | he <;> simp [SubscribeApi.handler, h, he]
  · intro h he g
    rcases he with he | he <;> simp [SubscribeApi.handler, h, he]
  · intro e msg h he hne hf
    simp [SubscribeApi.handler, h, he, hne, hf]
  · intro e resp msg h he hne hf hj
    simp [SubscribeApi.handler, h, he, hne, hf, hj]
  · intro e resp d h he hne hf hj hok
    simp [SubscribeApi.handler, h, he, hne, hf, hj, hok]
  · intro e resp d h he hne hf hj hok
    simp [SubscribeApi.handler, h, he, hne, hf, hj, hok]

/-- Claim C10 (witness): a concrete GET request is answered 405 regardless
of the (failing) upstream fetch. -/
theorem C10_witness :
    req10.method ≠ "POST" ∧
    SubscribeApi.handler ℕ f10 req10 = ⟨405, SubscribeApi.ApiBody.errMsg "Method not allowed"⟩ := by
  have h : req10.method ≠ "POST" := by simp [req10]
  exact ⟨h, (C10_theorem ℕ f10 req10).1 h⟩

/-- Claim C1 (witness): the guard fires at the concrete zero-price input. -/
theorem C1_witness : RentalRoi.computeDealFromInputs ex1 = none :=
  (C1_amended ex1).mpr (Or.inl (by norm_num [ex1]))
